import Mathlib

/-!
Verification development for the LAF OS library's Windows drag-and-drop
adapter (`src/os/win/dnd.cpp`) and the Wintab cursor-button mapper
(`src/os/win/wintab.cpp`).

The C++ code is shallowly embedded: machine integers (DWORD, ULONG) are
natural numbers with explicit `% 2 ^ 32` where wrap-around matters,
nullable COM pointers are `Option` values, HRESULT status codes are an
inductive type, and external collaborators (the window abstraction, the
OS format queries, the image decoders) are parameters of the model.
-/

/-! ## Drop-effect / drop-operation conversion (`dnd.cpp` lines 18-46) -/

/-- Windows `DROPEFFECT_NONE` constant (platform header `oleidl.h`). -/
def DROPEFFECT_NONE : Nat := 0

/-- Windows `DROPEFFECT_COPY` constant (platform header `oleidl.h`). -/
def DROPEFFECT_COPY : Nat := 1

/-- Windows `DROPEFFECT_MOVE` constant (platform header `oleidl.h`). -/
def DROPEFFECT_MOVE : Nat := 2

/-- Windows `DROPEFFECT_LINK` constant (platform header `oleidl.h`). -/
def DROPEFFECT_LINK : Nat := 4

namespace DropOperation

/-- Modelled from the spec: `os::DropOperation` (header `os/dnd.h`, not under
`src/`) is "a bitmask over {Copy, Move, Link, None}"; `None` is the explicit
no-bits value and Copy/Move/Link are distinct single bits. -/
def None : Nat := 0

/-- Modelled from the spec: the `Copy` bit of `os::DropOperation`. -/
def Copy : Nat := 1

/-- Modelled from the spec: the `Move` bit of `os::DropOperation`. -/
def Move : Nat := 2

/-- Modelled from the spec: the `Link` bit of `os::DropOperation`. -/
def Link : Nat := 4

end DropOperation

/-- `as_dropeffect` (`dnd.cpp` lines 18-31): encode a portable operation
bitmask as a native drop-effect bitmask, testing each named bit. -/
def as_dropeffect (op : Nat) : Nat :=
  let effect := DROPEFFECT_NONE
  let effect := if op &&& DropOperation.Copy ≠ 0 then effect ||| DROPEFFECT_COPY else effect
  let effect := if op &&& DropOperation.Move ≠ 0 then effect ||| DROPEFFECT_MOVE else effect
  if op &&& DropOperation.Link ≠ 0 then effect ||| DROPEFFECT_LINK else effect

/-- `as_dropoperation` (`dnd.cpp` lines 33-46): decode a native drop-effect
bitmask to the portable operation bitmask, testing each named bit. -/
def as_dropoperation (pdwEffect : Nat) : Nat :=
  let op := 0
  let op := if pdwEffect &&& DROPEFFECT_COPY ≠ 0 then op ||| DropOperation.Copy else op
  let op := if pdwEffect &&& DROPEFFECT_MOVE ≠ 0 then op ||| DropOperation.Move else op
  if pdwEffect &&& DROPEFFECT_LINK ≠ 0 then op ||| DropOperation.Link else op

/-! ## Session state machine of `DragTargetAdapter` (`dnd.cpp` lines 255-342) -/

/-- Window-local integer coordinates (`gfx::Point`). -/
structure Point where
  x : Int
  y : Int
deriving DecidableEq, Repr

/-- HRESULT status codes returned by the session callbacks. -/
inductive Hres where
  | sOk
  | eNotImpl
  | eUnexpected
deriving DecidableEq, Repr

/-- External collaborator: the window abstraction (spec section 6).
`hasDragTarget` is the capability flag checked first by every callback; the
four `on...` functions model `notifyDragEnter/Drag/DragLeave/Drop` — each
receives the event's proposed operation bitmask and position and returns the
`dropResult()` operation bitmask the window leaves in the event. -/
structure Window where
  hasDragTarget : Bool
  onDragEnter : Nat → Point → Nat
  onDrag : Nat → Point → Nat
  onDragLeave : Nat → Point → Nat
  onDrop : Nat → Point → Nat

/-- Per-session mutable state of `DragTargetAdapter`: the held data-object
reference `m_data` (a nullable COM pointer, modelled as `Option Nat` where
`Nat` identifies a concrete `IDataObject`) and the stored pointer position
`m_position`.  The reference count `m_ref` is modelled separately below. -/
structure DragTargetAdapter where
  m_data : Option Nat
  m_position : Point
deriving DecidableEq, Repr

/-- Modelled from the spec: the initial Idle session state (the member
initializers live in header `os/win/dnd.h`, not under `src/`): no held
transfer-object reference, default position. -/
def DragTargetAdapter.initial : DragTargetAdapter :=
  { m_data := none, m_position := ⟨0, 0⟩ }

/-- `DragTargetAdapter::DragEnter` (`dnd.cpp` lines 255-279).  `pos` is the
window-local point produced by `drag_position` (an OS coordinate
conversion).  Returns (HRESULT, new state, written-back `*pdwEffect`); when
the callback does not write `*pdwEffect` the incoming value is returned
unchanged.  Note that `m_data = base::ComPtr(pDataObj)` executes before the
null check. -/
def DragTargetAdapter.DragEnter (w : Window) (st : DragTargetAdapter)
    (pDataObj : Option Nat) (pos : Point) (pdwEffect : Nat) :
    Hres × DragTargetAdapter × Nat :=
  if !w.hasDragTarget then (.eNotImpl, st, pdwEffect)
  else
    let st1 : DragTargetAdapter := { st with m_data := pDataObj }
    match pDataObj with
    | none => (.eUnexpected, st1, pdwEffect)
    | some _ =>
      let st2 : DragTargetAdapter := { st1 with m_position := pos }
      let result := w.onDragEnter (as_dropoperation pdwEffect) st2.m_position
      (.sOk, st2, as_dropeffect result)

/-- `DragTargetAdapter::DragOver` (`dnd.cpp` lines 281-300). -/
def DragTargetAdapter.DragOver (w : Window) (st : DragTargetAdapter)
    (pos : Point) (pdwEffect : Nat) : Hres × DragTargetAdapter × Nat :=
  if !w.hasDragTarget then (.eNotImpl, st, pdwEffect)
  else
    let st2 : DragTargetAdapter := { st with m_position := pos }
    let result := w.onDrag (as_dropoperation pdwEffect) st2.m_position
    (.sOk, st2, as_dropeffect result)

/-- `DragTargetAdapter::DragLeave` (`dnd.cpp` lines 302-316): forwards a
"drag left" event with operation `DropOperation::None` at the stored
position, then resets `m_data`.  `m_position` is not touched. -/
def DragTargetAdapter.DragLeave (w : Window) (st : DragTargetAdapter) :
    Hres × DragTargetAdapter :=
  if !w.hasDragTarget then (.eNotImpl, st)
  else
    let _result := w.onDragLeave DropOperation.None st.m_position
    (.sOk, { st with m_data := none })

/-- `DragTargetAdapter::Drop` (`dnd.cpp` lines 318-342).  As in `DragEnter`,
`m_data` is assigned before the null check; after `notifyDrop` the held
reference is cleared unconditionally (`m_data = nullptr`). -/
def DragTargetAdapter.Drop (w : Window) (st : DragTargetAdapter)
    (pDataObj : Option Nat) (pos : Point) (pdwEffect : Nat) :
    Hres × DragTargetAdapter × Nat :=
  if !w.hasDragTarget then (.eNotImpl, st, pdwEffect)
  else
    let st1 : DragTargetAdapter := { st with m_data := pDataObj }
    match pDataObj with
    | none => (.eUnexpected, st1, pdwEffect)
    | some _ =>
      let st2 : DragTargetAdapter := { st1 with m_position := pos }
      let result := w.onDrop (as_dropoperation pdwEffect) st2.m_position
      (.sOk, { st2 with m_data := none }, as_dropeffect result)

/-- A concrete window with a drag target, used for concrete evaluations. -/
def exampleWindow : Window :=
  { hasDragTarget := true
    onDragEnter := fun _ _ => DropOperation.Copy
    onDrag := fun _ _ => DropOperation.Copy
    onDragLeave := fun _ _ => DropOperation.None
    onDrop := fun _ _ => DropOperation.Copy }

/-- A concrete window without a drag target. -/
def noTargetWindow : Window :=
  { hasDragTarget := false
    onDragEnter := fun _ _ => 0
    onDrag := fun _ _ => 0
    onDragLeave := fun _ _ => 0
    onDrop := fun _ _ => 0 }

/-! ## Claims C1-C5: session callbacks and effect conversion -/

/-- C4: for every operation bitmask x that is a subset of {Copy, Move, Link}
(the eight values 0..7), decoding the native encoding is the identity:
`as_dropoperation (as_dropeffect x) = x`; and the empty set maps to the
explicit None value in both directions. -/
theorem as_dropeffect_as_dropoperation_roundtrip :
    (∀ x : Nat, x < 8 → as_dropoperation (as_dropeffect x) = x) ∧
    as_dropeffect DropOperation.None = DROPEFFECT_NONE ∧
    as_dropoperation DROPEFFECT_NONE = DropOperation.None := by
  refine ⟨?_, rfl, rfl⟩
  decide

/-- Witness for C4: the roundtrip evaluated at the concrete bitmask
5 = {Copy, Link}. -/
theorem as_dropeffect_as_dropoperation_roundtrip_witness :
    5 < 8 ∧ as_dropoperation (as_dropeffect 5) = 5 :=
  ⟨by decide, as_dropeffect_as_dropoperation_roundtrip.1 5 (by decide)⟩

/-- C5: when `hasDragTarget()` is false, each of the four session callbacks
returns `E_NOTIMPL`, leaves the session state exactly as it was, and leaves
the in/out effect word unchanged. -/
theorem no_drag_target_callbacks_noop :
    ∀ (w : Window) (st : DragTargetAdapter) (p : Option Nat) (pos : Point)
      (eff : Nat),
      w.hasDragTarget = false →
      DragTargetAdapter.DragEnter w st p pos eff = (.eNotImpl, st, eff) ∧
      DragTargetAdapter.DragOver w st pos eff = (.eNotImpl, st, eff) ∧
      DragTargetAdapter.DragLeave w st = (.eNotImpl, st) ∧
      DragTargetAdapter.Drop w st p pos eff = (.eNotImpl, st, eff) := by
  intro w st p pos eff h
  refine ⟨?_, ?_, ?_, ?_⟩ <;>
    simp [DragTargetAdapter.DragEnter, DragTargetAdapter.DragOver,
      DragTargetAdapter.DragLeave, DragTargetAdapter.Drop, h]

/-- Witness for C5: a concrete non-target window with a concrete mid-session
state: `DragLeave` is a no-op returning `E_NOTIMPL`. -/
theorem no_drag_target_callbacks_noop_witness :
    noTargetWindow.hasDragTarget = false ∧
    DragTargetAdapter.DragLeave noTargetWindow ⟨some 3, ⟨1, 2⟩⟩ =
      (.eNotImpl, ⟨some 3, ⟨1, 2⟩⟩) :=
  ⟨rfl,
    (no_drag_target_callbacks_noop noTargetWindow ⟨some 3, ⟨1, 2⟩⟩ none ⟨0, 0⟩ 0
      rfl).2.2.1⟩

/-- Counterexample to C1 as stated: after a successful `DragEnter` with data
object 7, the adapter holds `some 7`; a `Drop` whose supplied reference is
null returns `E_UNEXPECTED` yet the held reference is NOT the same as before
the call — the assignment `m_data = base::ComPtr(pDataObj)` precedes the
null check, overwriting the held reference with null. -/
theorem drop_null_mutates_state_cex :
    (DragTargetAdapter.DragEnter exampleWindow DragTargetAdapter.initial
        (some 7) ⟨1, 2⟩ 1).2.1.m_data = some 7 ∧
    (DragTargetAdapter.Drop exampleWindow
        (DragTargetAdapter.DragEnter exampleWindow DragTargetAdapter.initial
          (some 7) ⟨1, 2⟩ 1).2.1 none ⟨3, 4⟩ 1).1 = Hres.eUnexpected ∧
    (DragTargetAdapter.Drop exampleWindow
        (DragTargetAdapter.DragEnter exampleWindow DragTargetAdapter.initial
          (some 7) ⟨1, 2⟩ 1).2.1 none ⟨3, 4⟩ 1).2.1.m_data ≠ some 7 := by
  refine ⟨rfl, rfl, ?_⟩
  decide

/-- C1 (amended): on a window with a drag target, `DragEnter` and `Drop`
with a null transfer-object reference return `E_UNEXPECTED`, leave the
stored pointer position and the effect word unchanged, and set the held
data-object reference to null (so it is unchanged only when it was already
null). -/
theorem enter_drop_null_unexpected :
    ∀ (w : Window) (st : DragTargetAdapter) (pos : Point) (eff : Nat),
      w.hasDragTarget = true →
      DragTargetAdapter.DragEnter w st none pos eff =
        (.eUnexpected, ⟨none, st.m_position⟩, eff) ∧
      DragTargetAdapter.Drop w st none pos eff =
        (.eUnexpected, ⟨none, st.m_position⟩, eff) := by
  intro w st pos eff h
  constructor <;>
    simp [DragTargetAdapter.DragEnter, DragTargetAdapter.Drop, h]

/-- Witness for C1 (amended): concrete evaluation of `DragEnter` on a null
reference from a mid-session state. -/
theorem enter_drop_null_unexpected_witness :
    exampleWindow.hasDragTarget = true ∧
    DragTargetAdapter.DragEnter exampleWindow ⟨some 9, ⟨5, 6⟩⟩ none ⟨7, 8⟩ 2 =
      (.eUnexpected, ⟨none, ⟨5, 6⟩⟩, 2) :=
  ⟨rfl, (enter_drop_null_unexpected exampleWindow ⟨some 9, ⟨5, 6⟩⟩ ⟨7, 8⟩ 2 rfl).1⟩

/-- Counterexample to C2 as stated: starting from the Idle state, Enter at
position (5,7) followed by Leave does not return the adapter to the initial
Idle state — `DragLeave` resets only `m_data`, the stored position (5,7)
is retained. -/
theorem enter_leave_not_idle_cex :
    (DragTargetAdapter.DragLeave exampleWindow
        (DragTargetAdapter.DragEnter exampleWindow DragTargetAdapter.initial
          (some 1) ⟨5, 7⟩ 1).2.1).2 ≠ DragTargetAdapter.initial := by
  decide

/-- C2 (amended): after any Enter (non-null object, any position) followed
by Leave on a window with a drag target, Leave returns `S_OK` and the
adapter holds no transfer-object reference (and stores no operation bitmask
between callbacks at all); but the stored pointer position retains the value
set by Enter rather than being reset to the initial one. -/
theorem enter_leave_releases_reference :
    ∀ (w : Window) (st : DragTargetAdapter) (d : Nat) (pos : Point) (eff : Nat),
      w.hasDragTarget = true →
      DragTargetAdapter.DragLeave w
          (DragTargetAdapter.DragEnter w st (some d) pos eff).2.1 =
        (.sOk, ⟨none, pos⟩) := by
  intro w st d pos eff h
  simp [DragTargetAdapter.DragEnter, DragTargetAdapter.DragLeave, h]

/-- Witness for C2 (amended): concrete Enter→Leave run. -/
theorem enter_leave_releases_reference_witness :
    exampleWindow.hasDragTarget = true ∧
    DragTargetAdapter.DragLeave exampleWindow
        (DragTargetAdapter.DragEnter exampleWindow DragTargetAdapter.initial
          (some 4) ⟨5, 7⟩ 1).2.1 = (.sOk, ⟨none, ⟨5, 7⟩⟩) :=
  ⟨rfl,
    enter_leave_releases_reference exampleWindow DragTargetAdapter.initial 4
      ⟨5, 7⟩ 1 rfl⟩

/-- C3: for every Enter (non-null object) followed by Drop — with any data
object supplied to Drop, null included, and any behaviour of the window's
drop callback — the session-held transfer-object reference is released
(`m_data = none`) by the time Drop returns. -/
theorem enter_drop_releases_reference :
    ∀ (w : Window) (st : DragTargetAdapter) (d : Nat) (pos : Point) (eff : Nat)
      (p' : Option Nat) (pos' : Point) (eff' : Nat),
      w.hasDragTarget = true →
      (DragTargetAdapter.Drop w
          (DragTargetAdapter.DragEnter w st (some d) pos eff).2.1
          p' pos' eff').2.1.m_data = none := by
  intro w st d pos eff p' pos' eff' h
  cases p' <;>
    simp [DragTargetAdapter.DragEnter, DragTargetAdapter.Drop, h]

/-- Witness for C3: concrete Enter→Drop run with a window whose drop
callback declines every operation (`exampleWindow` returns Copy on drop, the
no-target-declining variant is covered by universality; here we evaluate the
Copy-accepting window). -/
theorem enter_drop_releases_reference_witness :
    exampleWindow.hasDragTarget = true ∧
    (DragTargetAdapter.Drop exampleWindow
        (DragTargetAdapter.DragEnter exampleWindow DragTargetAdapter.initial
          (some 4) ⟨5, 7⟩ 1).2.1 (some 4) ⟨6, 8⟩ 1).2.1.m_data = none :=
  ⟨rfl,
    enter_drop_releases_reference exampleWindow DragTargetAdapter.initial 4
      ⟨5, 7⟩ 1 (some 4) ⟨6, 8⟩ 1 rfl⟩

/-! ## `DragDataProviderWin::getImage` (`dnd.cpp` lines 144-190) -/

/-- Outcomes of the external OS/decoder calls that `getImage` makes, one
field per probe: `pngRegistered` models `RegisterClipboardFormatA("PNG")`
returning a nonzero format id; each `...Data` field models the corresponding
`DataWrapper::get` call delivering a non-null locked handle; each
`...Decodes` field models the corresponding decoder call
(`clip::win::read_png` or `BitmapInfo::to_image`) succeeding. -/
structure ImageSourceModel where
  pngRegistered : Bool
  pngData : Bool
  pngDecodes : Bool
  dibv5Data : Bool
  dibv5Decodes : Bool
  dibData : Bool
  dibDecodes : Bool
deriving DecidableEq, Repr

/-- Which format produced the surface returned by `getImage` (the returned
surface is built via `makeSurface` from that format's decoded image). -/
inductive ImageFormatUsed where
  | png
  | dibv5
  | dib
deriving DecidableEq, Repr

/-- `DragDataProviderWin::getImage` (`dnd.cpp` lines 144-190): try the
PNG-named format, then the extended (V5) bitmap, then the legacy bitmap;
return the surface of the first probe that both delivers data and decodes;
null if none does.  (The PNG probe is skipped entirely when the format name
cannot be registered.) -/
def DragDataProviderWin.getImage (s : ImageSourceModel) :
    Option ImageFormatUsed :=
  if s.pngRegistered && s.pngData && s.pngDecodes then some .png
  else if s.dibv5Data && s.dibv5Decodes then some .dibv5
  else if s.dibData && s.dibDecodes then some .dib
  else none

/-- C6: `getImage()` attempts decoding in the strict fixed order PNG →
extended (V5) bitmap → legacy bitmap, returning the result of the first
format that both delivers data and decodes successfully; for a source
advertising all three formats where only the legacy bitmap decodes, the
result comes from the legacy bitmap; and if no format yields a successful
decode the result is `none` (a normal outcome, not an error). -/
theorem getImage_priority_order :
    (∀ s : ImageSourceModel,
      (s.pngRegistered && s.pngData && s.pngDecodes) = true →
      DragDataProviderWin.getImage s = some .png) ∧
    (∀ s : ImageSourceModel,
      (s.pngRegistered && s.pngData && s.pngDecodes) = false →
      (s.dibv5Data && s.dibv5Decodes) = true →
      DragDataProviderWin.getImage s = some .dibv5) ∧
    (∀ s : ImageSourceModel,
      (s.pngRegistered && s.pngData && s.pngDecodes) = false →
      (s.dibv5Data && s.dibv5Decodes) = false →
      (s.dibData && s.dibDecodes) = true →
      DragDataProviderWin.getImage s = some .dib) ∧
    (∀ s : ImageSourceModel,
      s.pngRegistered = true → s.pngData = true → s.dibv5Data = true →
      s.dibData = true → s.pngDecodes = false → s.dibv5Decodes = false →
      s.dibDecodes = true →
      DragDataProviderWin.getImage s = some .dib) ∧
    (∀ s : ImageSourceModel,
      (s.pngRegistered && s.pngData && s.pngDecodes) = false →
      (s.dibv5Data && s.dibv5Decodes) = false →
      (s.dibData && s.dibDecodes) = false →
      DragDataProviderWin.getImage s = none) := by
  refine ⟨?_, ?_, ?_, ?_, ?_⟩ <;>
    (intro s
     obtain ⟨a, b, c, d, e, f, g⟩ := s
     revert a b c d e f g
     decide)

/-- Witness for C6: the source advertising all three formats where only the
legacy bitmap decodes yields the legacy-bitmap surface. -/
theorem getImage_priority_order_witness :
    DragDataProviderWin.getImage
        ⟨true, true, false, true, false, true, true⟩ = some .dib :=
  getImage_priority_order.2.2.2.1 ⟨true, true, false, true, false, true, true⟩
    rfl rfl rfl rfl rfl rfl rfl

/-! ## `DragDataProviderWin::contains` (`dnd.cpp` lines 192-224) -/

/-- A clipboard format as seen while enumerating the transfer object's
formats: one of the three well-known ids (`CF_HDROP`, `CF_DIBV5`, `CF_DIB`)
or any other id, carrying the name reported by
`GetClipboardFormatNameA`. -/
inductive WinFormat where
  | hdrop
  | dibv5
  | dib
  | other (nm : String)
deriving DecidableEq, Repr

/-- `os::DragDataItemType` — coarse content classification. -/
inductive DragDataItemType where
  | Paths
  | Image
deriving DecidableEq, Repr

/-- The formats advertised by a transfer object: `enumOk` models
`EnumFormatEtc` returning `S_OK` (enumeration can be started); `formats` is
the sequence the enumerator yields, in enumeration order. -/
structure EnumSourceModel where
  enumOk : Bool
  formats : List WinFormat
deriving DecidableEq, Repr

/-- One iteration of the `switch` in `contains` (`dnd.cpp` lines 201-221):
does format `f` make `contains` return true for item type `t`? -/
def formatMatches (t : DragDataItemType) (f : WinFormat) : Bool :=
  match f with
  | .hdrop => decide (t = DragDataItemType.Paths)
  | .dibv5 => decide (t = DragDataItemType.Image)
  | .dib => decide (t = DragDataItemType.Image)
  | .other nm => nm == "PNG" && decide (t = DragDataItemType.Image)

/-- `DragDataProviderWin::contains` (`dnd.cpp` lines 192-224): false when
enumeration cannot be started; otherwise true exactly when some enumerated
format matches the requested item type. -/
def DragDataProviderWin.contains (s : EnumSourceModel)
    (t : DragDataItemType) : Bool :=
  if s.enumOk then s.formats.any (formatMatches t) else false

/-- An enumerated format triggers `contains(Image)` exactly when it is the
extended bitmap, the legacy bitmap, or a format named exactly "PNG". -/
theorem formatMatches_image_iff (f : WinFormat) :
    formatMatches DragDataItemType.Image f = true ↔
      f = WinFormat.dibv5 ∨ f = WinFormat.dib ∨ f = WinFormat.other "PNG" := by
  cases f <;> simp [formatMatches]

/-- An enumerated format triggers `contains(Paths)` exactly when it is the
file-list format. -/
theorem formatMatches_paths_iff (f : WinFormat) :
    formatMatches DragDataItemType.Paths f = true ↔ f = WinFormat.hdrop := by
  cases f <;> simp [formatMatches]

/-- C7: for every set of advertised formats in any enumeration order,
`contains(Image)` is true iff enumeration can be started and some advertised
format is the extended (V5) bitmap, the legacy bitmap, or a format whose
registered name is exactly "PNG"; `contains(Paths)` is true iff enumeration
can be started and the file-list format is advertised; and `contains` is
false whenever enumeration cannot be started. -/
theorem contains_characterization :
    ∀ (s : EnumSourceModel) (t : DragDataItemType),
      (DragDataProviderWin.contains s DragDataItemType.Image = true ↔
        s.enumOk = true ∧ ∃ f ∈ s.formats,
          f = WinFormat.dibv5 ∨ f = WinFormat.dib ∨
            f = WinFormat.other "PNG") ∧
      (DragDataProviderWin.contains s DragDataItemType.Paths = true ↔
        s.enumOk = true ∧ WinFormat.hdrop ∈ s.formats) ∧
      (s.enumOk = false → DragDataProviderWin.contains s t = false) := by
  intro s t
  obtain ⟨eok, fmts⟩ := s
  cases eok <;>
    simp [DragDataProviderWin.contains, List.any_eq_true,
      formatMatches_image_iff, formatMatches_paths_iff]

/-- Witness for C7: when format enumeration cannot be started, `contains`
returns false even though the file-list format would be in the (never
delivered) format sequence. -/
theorem contains_characterization_witness :
    DragDataProviderWin.contains ⟨false, [WinFormat.hdrop]⟩
      DragDataItemType.Paths = false :=
  (contains_characterization ⟨false, [WinFormat.hdrop]⟩
    DragDataItemType.Paths).2.2 rfl

/-! ## `DataWrapper` medium lifecycle (`dnd.cpp` lines 81-117) -/

/-- State of a `DataWrapper` (the `FormatDataSource` of the spec) together
with a ghost view of the OS side: `m_medium` is `some id` exactly when the
wrapper tracks a delivered storage medium (`m_result == S_OK`), and `live`
lists every medium delivered by `GetData` and not yet passed to
`ReleaseStgMedium`, in most-recent-first order. -/
structure DataWrapper where
  m_medium : Option Nat
  live : List Nat
deriving DecidableEq, Repr

/-- A freshly constructed `DataWrapper`: `m_result` is initialized to a
failure value, so no medium is tracked and none has been delivered. -/
def DataWrapper.init : DataWrapper := { m_medium := none, live := [] }

/-- `DataWrapper::release` (`dnd.cpp` lines 107-112): if a medium is
tracked (`m_result == S_OK`), release it and mark the wrapper empty;
otherwise do nothing. -/
def DataWrapper.release (s : DataWrapper) : DataWrapper :=
  match s.m_medium with
  | some m => { m_medium := none, live := s.live.erase m }
  | none => s

/-- `DataWrapper::get` (`dnd.cpp` lines 89-104): first `release()`, then
issue the format query.  `res = some m` models `GetData` returning `S_OK`
and delivering medium `m` (which becomes live on the OS side); `res = none`
models the query failing, after which no medium is tracked. -/
def DataWrapper.get (s : DataWrapper) (res : Option Nat) : DataWrapper :=
  let s1 := s.release
  match res with
  | some m => { m_medium := some m, live := m :: s1.live }
  | none => { m_medium := none, live := s1.live }

/-- Invariant of `DataWrapper`: the live media are exactly the tracked one.
Preserved by every `get`. -/
theorem DataWrapper.get_inv (s : DataWrapper) (res : Option Nat)
    (h : s.live = s.m_medium.toList) :
    (s.get res).live = (s.get res).m_medium.toList := by
  obtain ⟨med, lv⟩ := s
  cases med <;> cases res <;>
    simp_all [DataWrapper.get, DataWrapper.release]

/-- The live-media invariant holds after any sequence of `get` calls on a
freshly constructed wrapper. -/
theorem DataWrapper.foldl_inv (qs : List (Option Nat)) (s : DataWrapper)
    (h : s.live = s.m_medium.toList) :
    (qs.foldl DataWrapper.get s).live =
      (qs.foldl DataWrapper.get s).m_medium.toList := by
  induction qs generalizing s with
  | nil => exact h
  | cons q t ih => exact ih (s.get q) (DataWrapper.get_inv s q h)

/-- C8: a `DataWrapper` holds at most one live transfer medium at any
instant — after any prefix of any sequence of `get` calls (each call first
releasing the held medium before the new format query) at most one
delivered medium is unreleased — and destruction (which runs `release()`)
leaves no live medium, so no medium outlives the next query on the same
source or the source itself. -/
theorem dataWrapper_at_most_one_live_medium :
    ∀ (qs : List (Option Nat)) (k : Nat),
      ((qs.take k).foldl DataWrapper.get DataWrapper.init).live.length ≤ 1 ∧
      (qs.foldl DataWrapper.get DataWrapper.init).release.live = [] := by
  intro qs k
  constructor
  · have h := DataWrapper.foldl_inv (qs.take k) DataWrapper.init rfl
    rw [h]
    cases ((qs.take k).foldl DataWrapper.get DataWrapper.init).m_medium <;> simp
  · have h := DataWrapper.foldl_inv qs DataWrapper.init rfl
    unfold DataWrapper.release
    cases hm : (qs.foldl DataWrapper.get DataWrapper.init).m_medium <;>
      rw [hm] at h <;> simp_all

/-! ## `DragTargetAdapter::AddRef` / `Release` (`dnd.cpp` lines 240-253)

`InterlockedIncrement`/`InterlockedDecrement` are single atomic steps on the
32-bit counter `m_ref`, so every concurrent execution (e.g. two threads
incrementing and decrementing) is equivalent to some interleaving: a single
sequence of `AddRef`/`Release` operations.  We model histories as such
sequences.  ULONG arithmetic is `Nat` with explicit `% 2 ^ 32`. -/

/-- The modulus of ULONG arithmetic. -/
def ULONG_MOD : Nat := 2 ^ 32

/-- The adapter's lifetime state: the 32-bit counter `m_ref` and a ghost
count of how many times `delete this` has executed. -/
structure RefCount where
  m_ref : Nat
  destroyed : Nat
deriving DecidableEq, Repr

/-- `DragTargetAdapter::AddRef` (`dnd.cpp` lines 240-243): atomically
increment and return the new count. -/
def AddRef (s : RefCount) : Nat × RefCount :=
  let r := (s.m_ref + 1) % ULONG_MOD
  (r, { m_ref := r, destroyed := s.destroyed })

/-- `DragTargetAdapter::Release` (`dnd.cpp` lines 245-253): atomically
decrement; if the new count is zero, `delete this`; return the new count. -/
def Release (s : RefCount) : Nat × RefCount :=
  let r := (s.m_ref + (ULONG_MOD - 1)) % ULONG_MOD
  (r, { m_ref := r,
        destroyed := if r = 0 then s.destroyed + 1 else s.destroyed })

/-- One operation of a reference-count history. -/
inductive RCOp where
  | addRef
  | release
deriving DecidableEq, Repr

/-- One step of a reference-count history: apply the operation, keeping the
resulting state. -/
def rcStep (s : RefCount) (op : RCOp) : RefCount :=
  match op with
  | .addRef => (AddRef s).2
  | .release => (Release s).2

/-- Run a history of `AddRef`/`Release` operations. -/
def runRC (s : RefCount) (ops : List RCOp) : RefCount :=
  ops.foldl rcStep s

/-- A history is valid from counter value `ref` when every operation
executes while the object is alive (the count is positive when the
operation runs), no increment overflows the 32-bit counter, and the final
net count is zero.  Interleavings of threads that hold genuine references
and balance their increments and decrements are exactly these histories. -/
def validHistory (ref : Nat) : List RCOp → Bool
  | [] => ref == 0
  | .addRef :: t =>
      decide (0 < ref) && decide (ref + 1 < ULONG_MOD) &&
        validHistory (ref + 1) t
  | .release :: t =>
      decide (0 < ref) && decide (ref < ULONG_MOD) && validHistory (ref - 1) t

set_option maxRecDepth 4096 in
/-- Every valid history destroys the adapter exactly once and ends with a
zero count. -/
theorem runRC_valid (ops : List RCOp) :
    ∀ (ref d : Nat), 0 < ref → validHistory ref ops = true →
      (runRC ⟨ref, d⟩ ops).destroyed = d + 1 ∧
      (runRC ⟨ref, d⟩ ops).m_ref = 0 := by
  induction ops with
  | nil =>
    intro ref d h hv
    simp only [validHistory, beq_iff_eq] at hv
    omega
  | cons op t ih =>
    intro ref d h hv
    cases op with
    | addRef =>
      simp only [validHistory, Bool.and_eq_true, decide_eq_true_eq] at hv
      obtain ⟨⟨h1, h2⟩, h3⟩ := hv
      have hmod : (ref + 1) % ULONG_MOD = ref + 1 := Nat.mod_eq_of_lt h2
      have hstep : runRC ⟨ref, d⟩ (.addRef :: t) = runRC ⟨ref + 1, d⟩ t := by
        simp only [runRC, List.foldl_cons, rcStep, AddRef, hmod]
      rw [hstep]
      exact ih (ref + 1) d (by omega) h3
    | release =>
      simp only [validHistory, Bool.and_eq_true, decide_eq_true_eq] at hv
      obtain ⟨⟨h1, h2⟩, h3⟩ := hv
      have hmod : (ref + (ULONG_MOD - 1)) % ULONG_MOD = ref - 1 := by
        have h4 : ref + (ULONG_MOD - 1) = (ref - 1) + ULONG_MOD := by
          have h0 : 0 < ULONG_MOD := Nat.pos_pow_of_pos 32 (by omega)
          omega
        rw [h4, Nat.add_mod_right, Nat.mod_eq_of_lt (by omega)]
      have hstep : runRC ⟨ref, d⟩ (.release :: t) =
          runRC ⟨ref - 1, if ref - 1 = 0 then d + 1 else d⟩ t := by
        simp only [runRC, List.foldl_cons, rcStep, Release, hmod]
      rw [hstep]
      by_cases hone : ref = 1
      · subst hone
        rw [if_pos rfl]
        cases t with
        | nil => exact ⟨rfl, rfl⟩
        | cons op' t' =>
          exfalso
          cases op' <;> exact Bool.noConfusion h3
      · have hr : ref - 1 ≠ 0 := by omega
        rw [if_neg hr]
        exact ih (ref - 1) d (by omega) h3

/-- C9: `AddRef` returns the new incremented count and `Release` the new
decremented count (both atomic, so any two-thread execution is an
interleaved history); and for every history of `AddRef`/`Release` calls in
which each operation runs while the object is alive, no increment overflows,
and the final net count is zero — in particular every interleaving of
concurrent increments and decrements from two threads with a net-zero final
count — exactly one `Release` observes the count reaching zero, and that
call destroys the adapter exactly once (the ghost `destroyed` counter ends
at exactly 1). -/
theorem addRef_release_single_destruction :
    (∀ s : RefCount, s.m_ref + 1 < ULONG_MOD →
      (AddRef s).1 = s.m_ref + 1 ∧ (AddRef s).2.m_ref = s.m_ref + 1 ∧
      (AddRef s).2.destroyed = s.destroyed) ∧
    (∀ s : RefCount, 0 < s.m_ref → s.m_ref < ULONG_MOD →
      (Release s).1 = s.m_ref - 1 ∧ (Release s).2.m_ref = s.m_ref - 1) ∧
    (∀ (n : Nat) (ops : List RCOp), 0 < n → validHistory n ops = true →
      (runRC ⟨n, 0⟩ ops).destroyed = 1 ∧ (runRC ⟨n, 0⟩ ops).m_ref = 0) := by
  refine ⟨?_, ?_, ?_⟩
  · intro s h
    have hmod : (s.m_ref + 1) % ULONG_MOD = s.m_ref + 1 := Nat.mod_eq_of_lt h
    refine ⟨?_, ?_, ?_⟩ <;> simp only [AddRef, hmod]
  · intro s h1 h2
    have hmod : (s.m_ref + (ULONG_MOD - 1)) % ULONG_MOD = s.m_ref - 1 := by
      have h4 : s.m_ref + (ULONG_MOD - 1) = (s.m_ref - 1) + ULONG_MOD := by
        have h0 : 0 < ULONG_MOD := Nat.pos_pow_of_pos 32 (by omega)
        omega
      rw [h4, Nat.add_mod_right, Nat.mod_eq_of_lt (by omega)]
    refine ⟨?_, ?_⟩ <;> simp only [Release, hmod]
  · intro n ops h hv
    exact runRC_valid ops n 0 h hv

/-- Witness for C9: the valid interleaving AddRef, Release, Release from an
initial count of 1 destroys the adapter exactly once and ends at count
zero. -/
theorem addRef_release_single_destruction_witness :
    validHistory 1 [RCOp.addRef, RCOp.release, RCOp.release] = true ∧
    (runRC ⟨1, 0⟩ [RCOp.addRef, RCOp.release, RCOp.release]).destroyed = 1 ∧
    (runRC ⟨1, 0⟩ [RCOp.addRef, RCOp.release, RCOp.release]).m_ref = 0 :=
  ⟨by decide,
    (addRef_release_single_destruction.2.2 1
      [RCOp.addRef, RCOp.release, RCOp.release] (by decide) (by decide)).1,
    (addRef_release_single_destruction.2.2 1
      [RCOp.addRef, RCOp.release, RCOp.release] (by decide) (by decide)).2⟩

/-! ## `WintabAPI::mapCursorButton` (`wintab.cpp` lines 207-273) -/

/-- `os::Event::Type` values that `mapCursorButton` can assign (enum
`os/event.h`, an external collaborator; only distinctness matters). -/
inductive EvType where
  | mouseMove
  | mouseDown
  | mouseUp
  | mouseDoubleClick
deriving DecidableEq, Repr

/-- `os::Event::MouseButton` values that `mapCursorButton` can assign. -/
inductive MouseButton where
  | noneButton
  | leftButton
  | rightButton
  | middleButton
deriving DecidableEq, Repr

/-- Wintab `TBN_NONE` relative-button code (header `wintab.h`). -/
def TBN_NONE : Int := 0

/-- Wintab `TBN_UP` relative-button code (header `wintab.h`). -/
def TBN_UP : Int := 1

/-- Wintab `TBN_DOWN` relative-button code (header `wintab.h`). -/
def TBN_DOWN : Int := 2

/-- Wintab `SBN_LCLICK` button action code (header `wintab.h`). -/
def SBN_LCLICK : Nat := 1

/-- Wintab `SBN_LDBLCLICK` button action code (header `wintab.h`). -/
def SBN_LDBLCLICK : Nat := 2

/-- Wintab `SBN_LDRAG` button action code (header `wintab.h`). -/
def SBN_LDRAG : Nat := 3

/-- Wintab `SBN_RCLICK` button action code (header `wintab.h`). -/
def SBN_RCLICK : Nat := 4

/-- Wintab `SBN_RDBLCLICK` button action code (header `wintab.h`). -/
def SBN_RDBLCLICK : Nat := 5

/-- Wintab `SBN_RDRAG` button action code (header `wintab.h`). -/
def SBN_RDRAG : Nat := 6

/-- Wintab `SBN_MCLICK` button action code (header `wintab.h`). -/
def SBN_MCLICK : Nat := 7

/-- Wintab `SBN_MDBLCLICK` button action code (header `wintab.h`). -/
def SBN_MDBLCLICK : Nat := 8

/-- Wintab `SBN_MDRAG` button action code (header `wintab.h`). -/
def SBN_MDRAG : Nat := 9

/-- The first `switch` of `mapCursorButton` (`wintab.cpp` lines 214-225):
the event type determined solely by `relativeButton`. -/
def wintabEvType (relativeButton : Int) : EvType :=
  if relativeButton = TBN_DOWN then .mouseDown
  else if relativeButton = TBN_UP then .mouseUp
  else .mouseMove

/-- `WintabAPI::mapCursorButton` (`wintab.cpp` lines 207-273).  `map` models
the 32-entry `BYTE map[32]` system-button map that `WTInfo(WTI_CURSORS +
cursor, CSR_SYSBTNMAP, &map)` fills for the given cursor; representing it as
a function on `Fin 32` makes the in-bounds access obligation explicit.  The
early return on an invalid logical button (lines 228-231) happens before the
map is read; the final `switch` (lines 239-261) has deliberate fallthrough
from each double-click case into the click/drag cases of the same button. -/
def WintabAPI.mapCursorButton (cursor : Int) (map : Fin 32 → Nat)
    (logicalButton relativeButton : Int) : EvType × MouseButton :=
  let evType := wintabEvType relativeButton
  if h : logicalButton < 0 ∨ 32 ≤ logicalButton then
    (evType, .noneButton)
  else
    let code := map ⟨logicalButton.toNat, by omega⟩
    if code = SBN_LDBLCLICK then (.mouseDoubleClick, .leftButton)
    else if code = SBN_LCLICK ∨ code = SBN_LDRAG then (evType, .leftButton)
    else if code = SBN_RDBLCLICK then (.mouseDoubleClick, .rightButton)
    else if code = SBN_RCLICK ∨ code = SBN_RDRAG then (evType, .rightButton)
    else if code = SBN_MDBLCLICK then (.mouseDoubleClick, .middleButton)
    else if code = SBN_MCLICK ∨ code = SBN_MDRAG then (evType, .middleButton)
    else (evType, .noneButton)

/-- C10: `mapCursorButton` never reads the 32-entry system-button map out of
bounds: for every `logicalButton` outside [0, 32) it returns early with the
result independent of the map's contents (the map is read only in bounds),
`mouseButton` equal to `NoneButton`, and `evType` determined solely by
`relativeButton` — `MouseDown` for `TBN_DOWN`, `MouseUp` for `TBN_UP`,
`MouseMove` otherwise. -/
theorem mapCursorButton_oob_safe :
    ∀ (cursor : Int) (m1 m2 : Fin 32 → Nat) (lb rb : Int),
      lb < 0 ∨ 32 ≤ lb →
      WintabAPI.mapCursorButton cursor m1 lb rb =
        WintabAPI.mapCursorButton cursor m2 lb rb ∧
      (WintabAPI.mapCursorButton cursor m1 lb rb).2 = MouseButton.noneButton ∧
      (WintabAPI.mapCursorButton cursor m1 lb rb).1 =
        (if rb = TBN_DOWN then EvType.mouseDown
         else if rb = TBN_UP then EvType.mouseUp
         else EvType.mouseMove) := by
  intro cursor m1 m2 lb rb h
  unfold WintabAPI.mapCursorButton
  rw [dif_pos h, dif_pos h]
  exact ⟨rfl, rfl, rfl⟩

/-- Witness for C10: logical button 32 (one past the last valid index) with
two different maps: both runs agree and report no button, with the event
type taken from the relative button `TBN_DOWN`. -/
theorem mapCursorButton_oob_safe_witness :
    ((32 : Int) < 0 ∨ (32 : Int) ≤ 32) ∧
    WintabAPI.mapCursorButton 0 (fun _ => SBN_LCLICK) 32 TBN_DOWN =
      WintabAPI.mapCursorButton 0 (fun _ => SBN_MDRAG) 32 TBN_DOWN ∧
    (WintabAPI.mapCursorButton 0 (fun _ => SBN_LCLICK) 32 TBN_DOWN).2 =
      MouseButton.noneButton :=
  ⟨Or.inr (by omega),
    (mapCursorButton_oob_safe 0 (fun _ => SBN_LCLICK) (fun _ => SBN_MDRAG) 32
      TBN_DOWN (Or.inr (by omega))).1,
    (mapCursorButton_oob_safe 0 (fun _ => SBN_LCLICK) (fun _ => SBN_MDRAG) 32
      TBN_DOWN (Or.inr (by omega))).2.1⟩
